import Mathlib

/-!
# Verification of the DS1307 RTC driver register codec

Shallow embedding of `ds1307/ds1307.py` (class `DS1307`).  The driver is a
pure encoding/decoding layer over a fixed register map plus two cached
configuration fields (`_weekday_start`, `_halt`); the I2C bus is an external
collaborator.  We model driver state as a structure, bus traffic as a list of
explicit `BusOp` transactions, and every Python method as a pure Lean
function from the state (plus the bytes the bus would return) to its result
and the transactions it issues.

Python integers are modelled as `Int` (they are unbounded).  The bitwise
operations the source uses are translated by their arithmetic meaning on
Python integers, noted at each definition:
* `x >> 4` is floor division by `2^4`, which for Lean `Int` (whose `/` is
  `Int.ediv`, agreeing with floor division for positive divisors) is `x / 16`;
* `x & 0x0F` and `x & 0x7F` keep the low bits, i.e. the nonnegative
  remainders `x % 16` and `x % 128` (true for negative Python ints as well,
  by two's complement), matching `Int.emod`;
* `a << 4 | b` with `0 ≤ b < 16` places `b` in the zeroed low nibble of
  `a << 4`, so it equals `a * 16 + b`.
-/

/-- Register offset of the seven datetime registers (`DATETIME_REG = const(0)`). -/
def DATETIME_REG : Nat := 0

/-- Mask of the halt bit, bit 7 of the seconds register (`CHIP_HALT = const(128)`). -/
def CHIP_HALT : Nat := 128

/-- Register offset of the control register (`CONTROL_REG = const(7)`). -/
def CONTROL_REG : Nat := 7

/-- One I2C transaction issued by the driver: `readfrom_mem(addr, reg, len)`
or `writeto_mem(addr, reg, data)`. -/
inductive BusOp where
  | read (addr : Nat) (reg : Nat) (len : Nat)
  | write (addr : Nat) (reg : Nat) (data : List Int)
deriving DecidableEq

/-- Driver state: the I2C address and the two cached configuration fields set
up by `DS1307.__init__` (`self._addr`, `self._weekday_start`, `self._halt`). -/
structure DS1307 where
  addr : Nat
  weekday_start : Int
  halt : Bool
deriving DecidableEq

/-- Python `DS1307.__init__(addr=0x68, i2c=None)`: stores the address and
initialises `_weekday_start = 0` and `_halt = False`.  The I2C handle is out
of scope (bus mechanics are an external collaborator). -/
def DS1307.init (addr : Nat) : DS1307 :=
  { addr := addr, weekday_start := 0, halt := false }

/-- Python `DS1307._dec_to_bcd`: `return (value // 10) << 4 | (value % 10)`.
`(value // 10) << 4` has a zero low nibble and `value % 10 ∈ [0, 9]` occupies
only that nibble, so the bitwise or is the sum `(value // 10) * 16 + value % 10`.
Lean `Int` division/remainder agree with Python's `//` and `%` (both floor
the quotient and return a nonnegative remainder for positive divisors). -/
def DS1307.dec_to_bcd (value : Int) : Int :=
  (value / 10) * 16 + value % 10

/-- Python `DS1307._bcd_to_dec`: `return ((value >> 4) * 10) + (value & 0x0F)`.
On Python integers the arithmetic shift `value >> 4` is floor division by 16
and `value & 0x0F` is the nonnegative remainder modulo 16 (also for negative
inputs, by two's complement), so both translate to Lean `Int` `/` and `%`. -/
def DS1307.bcd_to_dec (value : Int) : Int :=
  (value / 16) * 10 + value % 16

/-- Python `DS1307.is_leap_year`: `return (year % 4 == 0)`. -/
def DS1307.is_leap_year (year : Int) : Bool :=
  year % 4 == 0

/-- The `month_days` table of `DS1307.day_of_year`. -/
def month_days : List Int := [31, 28, 31, 30, 31, 30, 31, 31, 30, 31, 30, 31]

/-- Python `DS1307.day_of_year`: subtracts 2000 from the year, starts the
count at `day`, adds `month_days[x - 1]` for each `x` in `range(1, month)`
(i.e. `x = 1, ..., month - 1`, which is `List.range' 1 (month - 1).toNat`),
and adds one more day when `month >= 2` and `is_leap_year(year - 2000)`. -/
def DS1307.day_of_year (year month day : Int) : Int :=
  let year2 := year - 2000
  let days16 := (List.range' 1 (month - 1).toNat).foldl
    (fun acc x => acc + month_days.getD (x - 1) 0) day
  if 2 ≤ month ∧ DS1307.is_leap_year year2 = true then days16 + 1 else days16

/-- Python `DS1307.datetime` getter, decoding the 7 bytes obtained by
`readfrom_mem(self._addr, DATETIME_REG, 7)` (passed here as `buf`):
`year = bcd_to_dec(buf[6]) + 2000`, `month = bcd_to_dec(buf[5])`,
`day = bcd_to_dec(buf[4])`, hour/minute from `buf[2]`/`buf[1]`,
`second = bcd_to_dec(buf[0] & 0x7F)` (mask = `% 128`),
`weekday = bcd_to_dec(buf[3] - self._weekday_start)`, and the derived
`yearday = day_of_year(year, month, day)`.  The returned 8-tuple
`(year, month, day, hour, minute, second, weekday, yearday)` is modelled as
a list indexed exactly like the Python tuple. -/
def DS1307.datetime_get (self : DS1307) (buf : List Int) : List Int :=
  let year := DS1307.bcd_to_dec (buf.getD 6 0) + 2000
  let month := DS1307.bcd_to_dec (buf.getD 5 0)
  let day := DS1307.bcd_to_dec (buf.getD 4 0)
  let yearday := DS1307.day_of_year year month day
  [year, month, day,
    DS1307.bcd_to_dec (buf.getD 2 0),
    DS1307.bcd_to_dec (buf.getD 1 0),
    DS1307.bcd_to_dec (buf.getD 0 0 % 128),
    DS1307.bcd_to_dec (buf.getD 3 0 - self.weekday_start),
    yearday]

/-- The 7-byte buffer built by the Python `DS1307.datetime` setter from the
tuple `datetime` (indices: 0 year, 1 month, 2 day, 3 hour, 4 minute,
5 second, 6 weekday):
`buf[0] = dec_to_bcd(dt[5]) & 0x7F` (mask = `% 128`), `buf[1]`–`buf[2]`
minute and hour, `buf[3] = dec_to_bcd(dt[6] + self._weekday_start)`,
`buf[4]`–`buf[6]` day, month and `dec_to_bcd(dt[0] - 2000)`; finally
`buf[0] |= 1 << 7` when `self._halt` — on the masked value in `[0, 128)`
setting bit 7 is adding 128. -/
def DS1307.datetime_buf (self : DS1307) (dt : List Int) : List Int :=
  let buf0 := DS1307.dec_to_bcd (dt.getD 5 0) % 128
  let buf1 := DS1307.dec_to_bcd (dt.getD 4 0)
  let buf2 := DS1307.dec_to_bcd (dt.getD 3 0)
  let buf3 := DS1307.dec_to_bcd (dt.getD 6 0 + self.weekday_start)
  let buf4 := DS1307.dec_to_bcd (dt.getD 2 0)
  let buf5 := DS1307.dec_to_bcd (dt.getD 1 0)
  let buf6 := DS1307.dec_to_bcd (dt.getD 0 0 - 2000)
  let halted0 := if self.halt then buf0 + 128 else buf0
  [halted0, buf1, buf2, buf3, buf4, buf5, buf6]

/-- Python `DS1307.datetime` setter: builds the buffer and issues the single
transaction `writeto_mem(self._addr, DATETIME_REG, buf)`. -/
def DS1307.datetime_set (self : DS1307) (dt : List Int) : List BusOp :=
  [BusOp.write self.addr DATETIME_REG (self.datetime_buf dt)]

/-- Python `DS1307.year` property: `return self.datetime[0]`. -/
def DS1307.year (self : DS1307) (buf : List Int) : Int :=
  (self.datetime_get buf).getD 0 0

/-- Python `DS1307.month` property: `return self.datetime[1]`. -/
def DS1307.month (self : DS1307) (buf : List Int) : Int :=
  (self.datetime_get buf).getD 1 0

/-- Python `DS1307.day` property: `return self.datetime[2]`. -/
def DS1307.day (self : DS1307) (buf : List Int) : Int :=
  (self.datetime_get buf).getD 2 0

/-- Python `DS1307.hour` property: `return self.datetime[3]`. -/
def DS1307.hour (self : DS1307) (buf : List Int) : Int :=
  (self.datetime_get buf).getD 3 0

/-- Python `DS1307.minute` property: `return self.datetime[4]`. -/
def DS1307.minute (self : DS1307) (buf : List Int) : Int :=
  (self.datetime_get buf).getD 4 0

/-- Python `DS1307.second` property: `return self.datetime[5]`. -/
def DS1307.second (self : DS1307) (buf : List Int) : Int :=
  (self.datetime_get buf).getD 5 0

/-- Python `DS1307.weekday` property: the source line 237 is
`return self.datetime[5]` — it indexes position 5 (the second), not
position 6, although its docstring says it returns the weekday. -/
def DS1307.weekday (self : DS1307) (buf : List Int) : Int :=
  (self.datetime_get buf).getD 5 0

/-- Python `DS1307.yearday` property: `return self.datetime[7]`. -/
def DS1307.yearday (self : DS1307) (buf : List Int) : Int :=
  (self.datetime_get buf).getD 7 0

/-- Python `DS1307.weekday_start` setter: accepts `0 <= value <= 6` and
stores it, otherwise raises `ValueError("Weekday can only be in range 0-6")`
without touching any state or the bus.  The raise is modelled as
`Except.error` carrying the exception message; the caller's state is only
replaced on `Except.ok`. -/
def DS1307.weekday_start_set (self : DS1307) (value : Int) :
    Except String DS1307 :=
  if 0 ≤ value ∧ value ≤ 6 then
    Except.ok { self with weekday_start := value }
  else
    Except.error ("Weekday can only be in range 0-6")

/-- Python `DS1307.halt` getter: `return self._halt` — it only returns the
cached flag and issues no bus transaction, hence the empty trace. -/
def DS1307.halt_get (self : DS1307) : Bool × List BusOp :=
  (self.halt, [])

/-- Python `DS1307.halt` setter: reads one byte `reg` at `DATETIME_REG`
(the bus result is passed in as `reg`, a byte in `[0, 256)`), then
`reg |= CHIP_HALT` when the requested value is truthy, else
`reg &= ~CHIP_HALT` — clearing bit 7 removes exactly the contribution
`reg &&& CHIP_HALT` — caches `bool(value)` in `self._halt` and writes the
byte back at `DATETIME_REG`. -/
def DS1307.halt_set (self : DS1307) (value : Bool) (reg : Nat) :
    DS1307 × List BusOp :=
  let masked := if value then reg ||| CHIP_HALT else reg - (reg &&& CHIP_HALT)
  ({ self with halt := value },
    [BusOp.read self.addr DATETIME_REG 1,
      BusOp.write self.addr DATETIME_REG [(masked : Int)]])

/-- Python `DS1307.square_wave(sqw, out)`: rejects `sqw not in (0, 1, 4, 8, 32)`
with `ValueError("Squarewave can be set to 0Hz, 1Hz, {}Hz, {}Hz or {}Hz"
.format(2 ** 12, 2 ** 13, 2 ** 15))` — the formatted message is spelled out
below — and otherwise packs `rs0 | rs1 << 1 | sqw_bit << 4 | out_bit << 7`
where `rs0 = 1` iff `sqw` is 4 or 32, `rs1 = 1` iff `sqw` is 8 or 32,
`out_bit = 1` iff `out > 0`, `sqw_bit = 1` iff `sqw > 0` (the Python code
rebinds `out` and `sqw` to these 0/1 values), and issues the single write
`writeto_mem(self._addr, CONTROL_REG, bytearray([reg]))`. -/
def DS1307.square_wave (self : DS1307) (sqw out : Int) :
    Except String (List BusOp) :=
  if sqw ≠ 0 ∧ sqw ≠ 1 ∧ sqw ≠ 4 ∧ sqw ≠ 8 ∧ sqw ≠ 32 then
    Except.error ("Squarewave can be set to 0Hz, 1Hz, 4096Hz, 8192Hz or 32768Hz")
  else
    let rs0 : Nat := if sqw = 4 ∨ sqw = 32 then 1 else 0
    let rs1 : Nat := if sqw = 8 ∨ sqw = 32 then 1 else 0
    let outBit : Nat := if 0 < out then 1 else 0
    let sqwBit : Nat := if 0 < sqw then 1 else 0
    let reg : Nat := rs0 ||| rs1 <<< 1 ||| sqwBit <<< 4 ||| outBit <<< 7
    Except.ok [BusOp.write self.addr CONTROL_REG [(reg : Int)]]

/-- The day-of-year computation in the specification's words: the sum of the
standard month lengths for the months strictly before `month`, plus `day`,
plus 1 when `month ≥ 2` and the year is a leap year by the `year % 4 == 0`
rule (applied to the full year). -/
def dayOfYearSpec (year month day : Int) : Int :=
  (month_days.take (month - 1).toNat).sum + day +
    (if 2 ≤ month ∧ year % 4 = 0 then 1 else 0)

/-- C2: the BCD helpers are mutually inverse on their valid domains: for
`0 ≤ v ≤ 99`, `bcd_to_dec (dec_to_bcd v) = v`, and for a byte `b` whose high
nibble `b / 16` (Python `b >> 4`) and low nibble `b % 16` (Python `b & 0x0F`)
are both at most 9, `dec_to_bcd (bcd_to_dec b) = b`. -/
theorem C2_bcd_mutual_inverse (v b : Int)
    (hv0 : 0 ≤ v) (hv1 : v ≤ 99)
    (hb0 : 0 ≤ b) (hb1 : b ≤ 255) (hhi : b / 16 ≤ 9) (hlo : b % 16 ≤ 9) :
    DS1307.bcd_to_dec (DS1307.dec_to_bcd v) = v ∧
    DS1307.dec_to_bcd (DS1307.bcd_to_dec b) = b := by
  unfold DS1307.bcd_to_dec DS1307.dec_to_bcd
  constructor <;> omega

/-- Witness for C2, at `v = 42` and `b = 0x59`. -/
theorem C2_bcd_mutual_inverse_witness :
    ((0 : Int) ≤ 42 ∧ (42 : Int) ≤ 99 ∧ (0 : Int) ≤ 89 ∧ (89 : Int) ≤ 255 ∧
      (89 : Int) / 16 ≤ 9 ∧ (89 : Int) % 16 ≤ 9) ∧
    (DS1307.bcd_to_dec (DS1307.dec_to_bcd 42) = 42 ∧
      DS1307.dec_to_bcd (DS1307.bcd_to_dec 89) = 89) :=
  ⟨by decide, C2_bcd_mutual_inverse 42 89 (by decide) (by decide) (by decide)
    (by decide) (by decide) (by decide)⟩

/-- C7: for every year and every month in 1–12, `day_of_year` equals the sum
of the standard month lengths for the months strictly before `month`, plus
`day`, plus 1 exactly when `month ≥ 2` and `year % 4 == 0` (the code tests
`(year - 2000) % 4 == 0`, which is equivalent); in particular
`day_of_year 2023 5 29 = 149` and `day_of_year 2024 3 26 = 86`. -/
theorem C7_day_of_year_correct (year month day : Int)
    (hm1 : 1 ≤ month) (hm2 : month ≤ 12) :
    DS1307.day_of_year year month day = dayOfYearSpec year month day ∧
    DS1307.day_of_year 2023 5 29 = 149 ∧
    DS1307.day_of_year 2024 3 26 = 86 := by
  refine ⟨?_, by decide, by decide⟩
  have h4 : (year - 2000) % 4 = year % 4 := by omega
  interval_cases month <;>
    simp [DS1307.day_of_year, dayOfYearSpec, DS1307.is_leap_year, month_days,
      List.range', List.getD, h4] <;>
    split_ifs <;> omega

/-- Witness for C7, at `(year, month, day) = (2023, 5, 29)`. -/
theorem C7_day_of_year_correct_witness :
    ((1 : Int) ≤ 5 ∧ (5 : Int) ≤ 12) ∧
    (DS1307.day_of_year 2023 5 29 = dayOfYearSpec 2023 5 29 ∧
      DS1307.day_of_year 2023 5 29 = 149 ∧
      DS1307.day_of_year 2024 3 26 = 86) :=
  ⟨by decide, C7_day_of_year_correct 2023 5 29 (by decide) (by decide)⟩

/-- C3 as stated is false: with raw weekday byte `w = 1` and configured
`weekday_start = 2` the getter computes `bcd_to_dec (1 - 2) = 5` (Python's
floor shift and two's complement masking of the negative difference), while
the claim predicts `bcd_to_dec 1 - 2 = -1`. -/
theorem C3_weekday_decode_counterexample :
    (DS1307.datetime_get ⟨104, 2, false⟩ [0, 0, 0, 1, 0, 0, 0]).getD 6 0 = 5 ∧
    DS1307.bcd_to_dec 1 - 2 = -1 ∧ (5 : Int) ≠ -1 := by decide

/-- C3 amended: for a raw weekday byte `w` in 1–7 and configured offset
`off` in 0–6, the weekday field (index 6) returned by the datetime getter
equals `bcd_to_dec w - off` provided `off ≤ w` (the subtraction happens on
the still-encoded byte, so a negative intermediate value decodes
differently). -/
theorem C3_weekday_decode_amended (a : Nat) (hl : Bool)
    (b0 b1 b2 b4 b5 b6 w off : Int)
    (hw1 : 1 ≤ w) (hw2 : w ≤ 7) (ho1 : 0 ≤ off) (ho2 : off ≤ 6)
    (hle : off ≤ w) :
    (DS1307.datetime_get ⟨a, off, hl⟩ [b0, b1, b2, w, b4, b5, b6]).getD 6 0
      = DS1307.bcd_to_dec w - off := by
  simp only [DS1307.datetime_get, DS1307.bcd_to_dec, List.getD, List.get?]
  simp
  omega

/-- Witness for C3 (amended), at `w = 3`, `off = 1`. -/
theorem C3_weekday_decode_amended_witness :
    ((1 : Int) ≤ 3 ∧ (3 : Int) ≤ 7 ∧ (0 : Int) ≤ 1 ∧ (1 : Int) ≤ 6 ∧ (1 : Int) ≤ 3) ∧
    (DS1307.datetime_get ⟨104, 1, false⟩ [0, 0, 0, 3, 0, 0, 0]).getD 6 0
      = DS1307.bcd_to_dec 3 - 1 :=
  ⟨by decide, C3_weekday_decode_amended 104 false 0 0 0 0 0 0 3 1 (by decide)
    (by decide) (by decide) (by decide) (by decide)⟩

/-- C1 as stated is false in its weekday part: with `weekday_start = 5` and
weekday 5, the setter stores `dec_to_bcd (5 + 5) = 0x10`, and the getter
decodes `bcd_to_dec (0x10 - 5) = 11`, which is not the original weekday 5
(nor equal to it modulo 5, 6 or 7); the BCD carry in `weekday + offset ≥ 10`
breaks the round trip. -/
theorem C1_roundtrip_counterexample :
    (DS1307.datetime_get ⟨104, 5, false⟩
      (DS1307.datetime_buf ⟨104, 5, false⟩ [2000, 1, 1, 0, 0, 0, 5, 1])).getD 6 0 = 11 ∧
    (11 : Int) ≠ 5 := by decide

/-- C1 amended: for every DateTime in the chip's ranges, every configured
`weekday_start` in 0–6 and either cached halt flag, decoding the encoded
7-byte buffer returns year, month, day, hour, minute and second exactly
(bit 7 of the seconds byte is masked off by the getter), and returns the
original weekday whenever `weekday + weekday_start ≤ 9`, i.e. whenever the
BCD encoding of the offset weekday carries no tens digit (in particular
always when `weekday_start = 0`). -/
theorem C1_roundtrip_amended (st : DS1307) (y mo d h mi s wd yd : Int)
    (ho1 : 0 ≤ st.weekday_start) (ho2 : st.weekday_start ≤ 6)
    (hy1 : 2000 ≤ y) (hy2 : y ≤ 2099) (hmo1 : 1 ≤ mo) (hmo2 : mo ≤ 12)
    (hd1 : 1 ≤ d) (hd2 : d ≤ 31) (hh1 : 0 ≤ h) (hh2 : h ≤ 23)
    (hmi1 : 0 ≤ mi) (hmi2 : mi ≤ 59) (hs1 : 0 ≤ s) (hs2 : s ≤ 59)
    (hwd1 : 0 ≤ wd) (hwd2 : wd ≤ 6) :
    ((st.datetime_get (st.datetime_buf [y, mo, d, h, mi, s, wd, yd])).getD 0 0 = y) ∧
    ((st.datetime_get (st.datetime_buf [y, mo, d, h, mi, s, wd, yd])).getD 1 0 = mo) ∧
    ((st.datetime_get (st.datetime_buf [y, mo, d, h, mi, s, wd, yd])).getD 2 0 = d) ∧
    ((st.datetime_get (st.datetime_buf [y, mo, d, h, mi, s, wd, yd])).getD 3 0 = h) ∧
    ((st.datetime_get (st.datetime_buf [y, mo, d, h, mi, s, wd, yd])).getD 4 0 = mi) ∧
    ((st.datetime_get (st.datetime_buf [y, mo, d, h, mi, s, wd, yd])).getD 5 0 = s) ∧
    (wd + st.weekday_start ≤ 9 →
      (st.datetime_get (st.datetime_buf [y, mo, d, h, mi, s, wd, yd])).getD 6 0 = wd) := by
  obtain ⟨a, off, hl⟩ := st
  simp only [DS1307.datetime_get, DS1307.datetime_buf, DS1307.dec_to_bcd,
    DS1307.bcd_to_dec] at ho1 ho2 ⊢
  cases hl <;>
    simp only [Bool.false_eq_true, if_true, if_false, ite_true, ite_false] <;>
    simp [List.getD] <;>
    refine ⟨by omega, by omega, by omega, by omega, by omega, by omega, fun hc => by omega⟩

/-- Witness for C1 (amended), at the spec's example datetime
`(2023, 5, 29, 20, 45, 59, 3, 149)` with `weekday_start = 0`, halt cleared. -/
theorem C1_roundtrip_amended_witness :
    ((0 : Int) ≤ (DS1307.init 104).weekday_start ∧ (DS1307.init 104).weekday_start ≤ 6 ∧
      (2000 : Int) ≤ 2023 ∧ (2023 : Int) ≤ 2099 ∧ (1 : Int) ≤ 5 ∧ (5 : Int) ≤ 12 ∧
      (1 : Int) ≤ 29 ∧ (29 : Int) ≤ 31 ∧ (0 : Int) ≤ 20 ∧ (20 : Int) ≤ 23 ∧
      (0 : Int) ≤ 45 ∧ (45 : Int) ≤ 59 ∧ (0 : Int) ≤ 59 ∧ (59 : Int) ≤ 59 ∧
      (0 : Int) ≤ 3 ∧ (3 : Int) ≤ 6) ∧
    (((DS1307.init 104).datetime_get
        ((DS1307.init 104).datetime_buf [2023, 5, 29, 20, 45, 59, 3, 149])).getD 0 0 = 2023 ∧
      ((DS1307.init 104).datetime_get
        ((DS1307.init 104).datetime_buf [2023, 5, 29, 20, 45, 59, 3, 149])).getD 1 0 = 5 ∧
      ((DS1307.init 104).datetime_get
        ((DS1307.init 104).datetime_buf [2023, 5, 29, 20, 45, 59, 3, 149])).getD 2 0 = 29 ∧
      ((DS1307.init 104).datetime_get
        ((DS1307.init 104).datetime_buf [2023, 5, 29, 20, 45, 59, 3, 149])).getD 3 0 = 20 ∧
      ((DS1307.init 104).datetime_get
        ((DS1307.init 104).datetime_buf [2023, 5, 29, 20, 45, 59, 3, 149])).getD 4 0 = 45 ∧
      ((DS1307.init 104).datetime_get
        ((DS1307.init 104).datetime_buf [2023, 5, 29, 20, 45, 59, 3, 149])).getD 5 0 = 59 ∧
      ((3 : Int) + (DS1307.init 104).weekday_start ≤ 9 →
        ((DS1307.init 104).datetime_get
          ((DS1307.init 104).datetime_buf [2023, 5, 29, 20, 45, 59, 3, 149])).getD 6 0 = 3)) :=
  ⟨by decide, C1_roundtrip_amended (DS1307.init 104) 2023 5 29 20 45 59 3 149
    (by decide) (by decide) (by decide) (by decide) (by decide) (by decide)
    (by decide) (by decide) (by decide) (by decide) (by decide) (by decide)
    (by decide) (by decide) (by decide) (by decide)⟩

/-- C4 as stated is false in its second example: `square_wave(sqw=0, out=0)`
writes the control byte 0, not 0x80 — with `out = 0` the output-level bit
(bit 7) is 0, as the claim's own bit description requires. -/
theorem C4_square_wave_counterexample :
    DS1307.square_wave (DS1307.init 104) 0 0
      = Except.ok [BusOp.write 104 CONTROL_REG [(0 : Int)]] ∧
    (0 : Int) ≠ 0x80 := ⟨rfl, by decide⟩

/-- C4 amended: for every legal rate, `square_wave` issues a single 1-byte
write at register offset 7 whose byte is the sum of the set bits:
1 (bit 0) iff the rate is 4 or 32, 2 (bit 1) iff the rate is 8 or 32,
16 (bit 4) iff the rate is nonzero, 128 (bit 7) iff the requested output
level is truthy (`out > 0`); in particular `square_wave 32 1` writes 0x93
and `square_wave 0 0` writes 0x00 (not 0x80). -/
theorem C4_square_wave_amended (st : DS1307) (sqw out : Int)
    (hsqw : sqw = 0 ∨ sqw = 1 ∨ sqw = 4 ∨ sqw = 8 ∨ sqw = 32) :
    st.square_wave sqw out = Except.ok [BusOp.write st.addr CONTROL_REG
      [((if sqw = 4 ∨ sqw = 32 then 1 else 0) + (if sqw = 8 ∨ sqw = 32 then 2 else 0)
        + (if sqw ≠ 0 then 16 else 0) + (if 0 < out then 128 else 0) : Int)]] ∧
    st.square_wave 32 1 = Except.ok [BusOp.write st.addr CONTROL_REG [(0x93 : Int)]] ∧
    st.square_wave 0 0 = Except.ok [BusOp.write st.addr CONTROL_REG [(0 : Int)]] := by
  refine ⟨?_, rfl, rfl⟩
  rcases hsqw with rfl | rfl | rfl | rfl | rfl <;>
    by_cases hout : 0 < out <;>
    simp [DS1307.square_wave, hout]

/-- Witness for C4 (amended), at `sqw = 32`, `out = 1`. -/
theorem C4_square_wave_amended_witness :
    ((32 : Int) = 0 ∨ (32 : Int) = 1 ∨ (32 : Int) = 4 ∨ (32 : Int) = 8 ∨ (32 : Int) = 32) ∧
    (DS1307.square_wave (DS1307.init 104) 32 1
        = Except.ok [BusOp.write (DS1307.init 104).addr CONTROL_REG
          [((if (32 : Int) = 4 ∨ (32 : Int) = 32 then 1 else 0)
            + (if (32 : Int) = 8 ∨ (32 : Int) = 32 then 2 else 0)
            + (if (32 : Int) ≠ 0 then 16 else 0) + (if (0 : Int) < 1 then 128 else 0) : Int)]] ∧
      DS1307.square_wave (DS1307.init 104) 32 1
        = Except.ok [BusOp.write (DS1307.init 104).addr CONTROL_REG [(0x93 : Int)]] ∧
      DS1307.square_wave (DS1307.init 104) 0 0
        = Except.ok [BusOp.write (DS1307.init 104).addr CONTROL_REG [(0 : Int)]]) :=
  ⟨by decide, C4_square_wave_amended (DS1307.init 104) 32 1 (by decide)⟩

/-- C5: the claim (and the property's own docstring) says the weekday
projection returns index 6 of the decoded tuple, but the source line
`return self.datetime[5]` returns index 5 — the second.  Evaluating the code
at the spec's register state `[89, 69, 32, 3, 41, 5, 35]` with
`weekday_start = 0`: the `weekday` property yields 59 (the second, like the
`second` property), while the weekday component at index 6 is 3. -/
theorem C5_weekday_projection_bug :
    DS1307.weekday (DS1307.init 104) [89, 69, 32, 3, 41, 5, 35] = 59 ∧
    (DS1307.datetime_get (DS1307.init 104) [89, 69, 32, 3, 41, 5, 35]).getD 6 0 = 3 ∧
    DS1307.second (DS1307.init 104) [89, 69, 32, 3, 41, 5, 35] = 59 ∧
    (59 : Int) ≠ 3 := by decide

/-- C6: writing datetime `(2023, 5, 29, 20, 45, 59, 3, 149)` with cached
halt false and `weekday_start = 0` (the state built by `__init__`) issues
exactly one write of `[89, 69, 32, 3, 41, 5, 35]` at register offset 0;
in general the setter issues a single write of its 7-byte buffer at offset 0,
bit 7 of the seconds byte (`buf[0] / 128 % 2`, the buffer byte lies in
`[0, 256)`) equals the cached halt flag, and the weekday byte is
`dec_to_bcd (weekday + weekday_start)`. -/
theorem C6_datetime_write (st : DS1307) (dt : List Int) :
    DS1307.datetime_set (DS1307.init 104) [2023, 5, 29, 20, 45, 59, 3, 149]
      = [BusOp.write 104 DATETIME_REG [89, 69, 32, 3, 41, 5, 35]] ∧
    st.datetime_set dt = [BusOp.write st.addr DATETIME_REG (st.datetime_buf dt)] ∧
    (st.datetime_buf dt).getD 0 0 / 128 % 2 = (if st.halt then 1 else 0) ∧
    (st.datetime_buf dt).getD 3 0 = DS1307.dec_to_bcd (dt.getD 6 0 + st.weekday_start) := by
  refine ⟨by decide, rfl, ?_, rfl⟩
  obtain ⟨a, off, hl⟩ := st
  cases hl <;> simp [DS1307.datetime_buf, List.getD] <;> omega

set_option maxRecDepth 8000 in
/-- C8: the halt setter's trace is exactly one 1-byte read at offset 0
followed by one 1-byte write at offset 0; the written byte agrees with the
read-back byte on every bit except bit 7, which equals the requested value;
the requested boolean is stored as the cached halt flag (the state is not
re-read from the chip).  For a read-back of 0x59, requesting true writes
0xD9 and requesting false writes 0x59. -/
theorem C8_halt_set_correct (st : DS1307) (value : Bool) (reg : Nat)
    (hreg : reg < 256) :
    (st.halt_set value reg).fst = { st with halt := value } ∧
    (∃ b : Nat, (st.halt_set value reg).snd
        = [BusOp.read st.addr DATETIME_REG 1,
            BusOp.write st.addr DATETIME_REG [(b : Int)]] ∧
      b.testBit 7 = value ∧
      (∀ i : Nat, i ≠ 7 → b.testBit i = reg.testBit i)) ∧
    (st.halt_set true 0x59).snd
      = [BusOp.read st.addr DATETIME_REG 1, BusOp.write st.addr DATETIME_REG [(0xD9 : Int)]] ∧
    (st.halt_set false 0x59).snd
      = [BusOp.read st.addr DATETIME_REG 1, BusOp.write st.addr DATETIME_REG [(0x59 : Int)]] := by
  refine ⟨rfl, ⟨if value then reg ||| CHIP_HALT else reg - (reg &&& CHIP_HALT),
    rfl, ?_, fun i hi => ?_⟩, rfl, rfl⟩
  · have key : ∀ r : Nat, r < 256 → ∀ v : Bool,
        ((if v then r ||| CHIP_HALT else r - (r &&& CHIP_HALT)).testBit 7 = v) := by decide
    exact key reg hreg value
  · rcases Nat.lt_or_ge i 8 with hlt | hge
    · have key : ∀ r : Nat, r < 256 → ∀ v : Bool, ∀ j : Nat, j < 8 → j ≠ 7 →
          ((if v then r ||| CHIP_HALT else r - (r &&& CHIP_HALT)).testBit j
            = r.testBit j) := by decide
      exact key reg hreg value i hlt hi
    · have hb : (if value then reg ||| CHIP_HALT else reg - (reg &&& CHIP_HALT)) < 256 := by
        have key : ∀ r : Nat, r < 256 → ∀ v : Bool,
            (if v then r ||| CHIP_HALT else r - (r &&& CHIP_HALT)) < 256 := by decide
        exact key reg hreg value
      have h2 : (256 : Nat) ≤ 2 ^ i := by
        calc (256 : Nat) = 2 ^ 8 := by decide
        _ ≤ 2 ^ i := Nat.pow_le_pow_right (by decide) hge
      rw [Nat.testBit_eq_false_of_lt (by omega), Nat.testBit_eq_false_of_lt (by omega)]

/-- Witness for C8, at read-back byte 0x59 and requested value true. -/
theorem C8_halt_set_correct_witness :
    (89 : Nat) < 256 ∧
    (((DS1307.init 104).halt_set true 89).fst = { DS1307.init 104 with halt := true } ∧
      (∃ b : Nat, ((DS1307.init 104).halt_set true 89).snd
          = [BusOp.read (DS1307.init 104).addr DATETIME_REG 1,
              BusOp.write (DS1307.init 104).addr DATETIME_REG [(b : Int)]] ∧
        b.testBit 7 = true ∧
        (∀ i : Nat, i ≠ 7 → b.testBit i = (89 : Nat).testBit i)) ∧
      ((DS1307.init 104).halt_set true 0x59).snd
        = [BusOp.read (DS1307.init 104).addr DATETIME_REG 1,
            BusOp.write (DS1307.init 104).addr DATETIME_REG [(0xD9 : Int)]] ∧
      ((DS1307.init 104).halt_set false 0x59).snd
        = [BusOp.read (DS1307.init 104).addr DATETIME_REG 1,
            BusOp.write (DS1307.init 104).addr DATETIME_REG [(0x59 : Int)]]) :=
  ⟨by decide, C8_halt_set_correct (DS1307.init 104) true 89 (by decide)⟩

/-- C9: for a `weekday_start` value outside 0–6 the setter raises
`ValueError("Weekday can only be in range 0-6")` and for a square-wave rate
outside `{0, 1, 4, 8, 32}` `square_wave` raises the error naming
0/1/4096/8192/32768 Hz; both errors are raised before any bus transaction
(the error value carries no write) and no state change occurs (no `ok`
state is produced, so the configured `weekday_start` keeps its value). -/
theorem C9_invalid_arguments (st : DS1307) (v sqw out : Int)
    (hv : v < 0 ∨ 6 < v)
    (hsqw : sqw ≠ 0 ∧ sqw ≠ 1 ∧ sqw ≠ 4 ∧ sqw ≠ 8 ∧ sqw ≠ 32) :
    st.weekday_start_set v = Except.error ("Weekday can only be in range 0-6") ∧
    st.square_wave sqw out
      = Except.error ("Squarewave can be set to 0Hz, 1Hz, 4096Hz, 8192Hz or 32768Hz") ∧
    (∀ st2 : DS1307, st.weekday_start_set v ≠ Except.ok st2) ∧
    (∀ ops : List BusOp, st.square_wave sqw out ≠ Except.ok ops) := by
  have h1 : st.weekday_start_set v
      = Except.error ("Weekday can only be in range 0-6") := by
    unfold DS1307.weekday_start_set
    rw [if_neg]
    omega
  have h2 : st.square_wave sqw out
      = Except.error ("Squarewave can be set to 0Hz, 1Hz, 4096Hz, 8192Hz or 32768Hz") := by
    unfold DS1307.square_wave
    rw [if_pos hsqw]
  exact ⟨h1, h2, fun st2 h => by simp [h1] at h, fun ops h => by simp [h2] at h⟩

/-- Witness for C9, at `weekday_start = 7` and rate 2 (the spec's example). -/
theorem C9_invalid_arguments_witness :
    (((7 : Int) < 0 ∨ (6 : Int) < 7) ∧
      ((2 : Int) ≠ 0 ∧ (2 : Int) ≠ 1 ∧ (2 : Int) ≠ 4 ∧ (2 : Int) ≠ 8 ∧ (2 : Int) ≠ 32)) ∧
    ((DS1307.init 104).weekday_start_set 7
        = Except.error ("Weekday can only be in range 0-6") ∧
      (DS1307.init 104).square_wave 2 0
        = Except.error ("Squarewave can be set to 0Hz, 1Hz, 4096Hz, 8192Hz or 32768Hz") ∧
      (∀ st2 : DS1307, (DS1307.init 104).weekday_start_set 7 ≠ Except.ok st2) ∧
      (∀ ops : List BusOp, (DS1307.init 104).square_wave 2 0 ≠ Except.ok ops)) :=
  ⟨⟨by decide, by decide⟩,
    C9_invalid_arguments (DS1307.init 104) 7 2 0 (by decide) (by decide)⟩

/-- C10: the halt getter returns the cached flag with an empty bus trace
(no transaction is issued), and the flag is initialised to false by the
constructor, so right after construction the getter returns false no matter
what bit 7 of the chip's seconds register holds — the chip's registers are
not even an input to the getter. -/
theorem C10_halt_getter_cached (a : Nat) (st : DS1307) :
    (DS1307.init a).halt_get = (false, []) ∧
    st.halt_get = (st.halt, ([] : List BusOp)) :=
  ⟨rfl, rfl⟩

